import Mathlib

/-!
Shallow embedding of the Destiny 2 vault-curator classification core
(armor stat scorer, duplicate finder, cleanup planner) and proofs of the
specification claims about it.  Definitions mirror the TypeScript source:
`ArmorScorer` in `src/analysis/armor-scorer.ts`, `DuplicateFinder` in
`src/analysis/duplicate-finder.ts`, `CleanupPlanner` in
`src/planner/cleanup-planner.ts`, and the DIM backup model in
`src/dim/parser.ts`.  JavaScript numbers are modelled by `Nat`/`Int`
(all observable scores are integers after the final round/clamp) and the
fractional intermediate arithmetic by `ℚ`; `Array.prototype.sort` (stable
for the consistent comparators used here) is modelled by a stable
insertion sort.
-/

namespace VaultCurator

/-- Item category, the `itemType` field of `InventoryItem`. -/
inductive ItemType where
  | weapon
  | armor
  | other
  deriving DecidableEq, Repr, Inhabited

/-- Item rarity tier, the `ItemTier` enum of the source. -/
inductive ItemTier where
  | Unknown
  | Currency
  | Basic
  | Common
  | Rare
  | Legendary
  | Exotic
  deriving DecidableEq, Repr, Inhabited

/-- Item bucket location, the `ItemLocation` enum of the source. -/
inductive ItemLocation where
  | Unknown
  | Inventory
  | Vault
  | Vendor
  | Postmaster
  deriving DecidableEq, Repr, Inhabited

/-- The six armor stats plus their sum, the `ArmorStats` interface. -/
structure ArmorStats where
  mobility : Nat
  resilience : Nat
  recovery : Nat
  discipline : Nat
  intellect : Nat
  strength : Nat
  total : Nat
  deriving DecidableEq, Repr, Inhabited

/-- Core item snapshot, the `InventoryItem` interface (the weapon-only
display fields `damageType`/`weaponType` and `characterId` are omitted:
nothing in the scorer, finder or planner reads them). -/
structure InventoryItem where
  itemInstanceId : String
  itemHash : Nat
  name : String
  itemType : ItemType
  tier : ItemTier
  location : ItemLocation
  isEquipped : Bool
  isLocked : Bool
  isMasterworked : Bool
  powerLevel : Nat
  armorSlot : Option Nat
  classType : Option Nat
  stats : Option ArmorStats
  deriving DecidableEq, Repr, Inhabited

/-- One DIM loadout after parsing (`DIMLoadout`). -/
structure DIMLoadout where
  id : String
  name : String
  classType : Nat
  itemIds : List String
  deriving DecidableEq, Repr, Inhabited

/-- Parsed DIM backup: loadouts plus tag and note maps (`DIMBackup`).
JavaScript `Map`s are modelled as association lists with unique keys,
looked up by first match. -/
structure DIMBackup where
  loadouts : List DIMLoadout
  tags : List (String × String)
  notes : List (String × String)
  deriving DecidableEq, Repr, Inhabited

/-- The `DIMParser` object: it holds the most recently loaded backup,
or none when no backup has been loaded. -/
structure DIMParser where
  backup : Option DIMBackup
  deriving DecidableEq, Repr, Inhabited

/-- The `loaded` getter of `DIMParser`. -/
def DIMParser.loaded (p : DIMParser) : Bool :=
  p.backup.isSome

/-- The `getTag` lookup of `DIMParser`. -/
def DIMParser.getTag (p : DIMParser) (itemInstanceId : String) : Option String :=
  match p.backup with
  | none => none
  | some b => b.tags.lookup itemInstanceId

/-- The `getLoadoutsForItem` lookup of `DIMParser`. -/
def DIMParser.getLoadoutsForItem (p : DIMParser) (itemInstanceId : String) :
    List DIMLoadout :=
  match p.backup with
  | none => []
  | some b => b.loadouts.filter (fun l => l.itemIds.contains itemInstanceId)

/-- Protection rule configuration (`ProtectionRules`). -/
structure ProtectionRules where
  protectDIMLoadouts : Bool
  protectLockedItems : Bool
  protectMasterworked : Bool
  protectExotics : Bool
  protectHighStatArmor : Bool
  highStatThreshold : Nat
  customProtectedIds : List String
  deriving DecidableEq, Repr, Inhabited

/-- `DEFAULT_PROTECTION_RULES` from the planner module. -/
def DEFAULT_PROTECTION_RULES : ProtectionRules :=
  { protectDIMLoadouts := true
    protectLockedItems := true
    protectMasterworked := true
    protectExotics := true
    protectHighStatArmor := true
    highStatThreshold := 65
    customProtectedIds := [] }

/-- Recommendation action: KEEP, REVIEW or JUNK. -/
inductive RecAction where
  | KEEP
  | REVIEW
  | JUNK
  deriving DecidableEq, Repr, Inhabited

/-- One per-item recommendation (`CleanupRecommendation`); the optional
`score` and `protectedBy` fields default to absent/empty as in the
source, where they are simply omitted from the object literal. -/
structure CleanupRecommendation where
  item : InventoryItem
  action : RecAction
  reason : String
  score : Option Int := none
  protectedBy : List String := []
  deriving DecidableEq, Repr, Inhabited

/-- Plan summary counts. -/
structure CleanupSummary where
  totalAnalyzed : Nat
  keep : Nat
  review : Nat
  junk : Nat
  protectedItems : Nat
  deriving DecidableEq, Repr, Inhabited

/-- A generated plan (`CleanupPlan`).  The `generatedAt : Date` wall-clock
field is not part of the pure model; every claim about plans explicitly
ignores it. -/
structure CleanupPlan where
  summary : CleanupSummary
  recommendations : List CleanupRecommendation
  deriving DecidableEq, Repr, Inhabited

/-- Planner configuration (`CleanupPlannerConfig`). -/
structure CleanupPlannerConfig where
  includeCharacterInventory : Bool
  onlyVault : Bool
  deriving DecidableEq, Repr, Inhabited

/-- The `CleanupPlanner` object state: its DIM parser, active protection
rules and configuration.  `generatePlan` reads but never writes these
fields, so the state is threaded as an immutable value. -/
structure CleanupPlanner where
  dimParser : DIMParser
  protectionRules : ProtectionRules
  config : CleanupPlannerConfig
  deriving DecidableEq, Repr, Inhabited

/-! ### Stable sort

`Array.prototype.sort` is stable and all comparators in this codebase are
consistent (induced by a total preorder on a sort key), so the sorted
array is the unique stable sort of the input.  We model it by insertion
sort parameterised by the strict "precedes" relation `before a b`
(comparator returns a negative number on `(a, b)`); ties keep input
order. -/

/-- Insert `x` into `l`, after every element that strictly precedes it. -/
def insertSorted {α : Type} (before : α → α → Bool) (x : α) : List α → List α
  | [] => [x]
  | y :: ys => if before y x then y :: insertSorted before x ys else x :: y :: ys

/-- Stable sort by the strict relation `before` (JS `sort` with a
consistent comparator). -/
def stableSort {α : Type} (before : α → α → Bool) (l : List α) : List α :=
  l.foldr (insertSorted before) []

theorem mem_insertSorted {α : Type} (before : α → α → Bool) (x a : α) :
    ∀ l : List α, a ∈ insertSorted before x l ↔ a = x ∨ a ∈ l := by
  intro l
  induction l with
  | nil => simp [insertSorted]
  | cons y ys ih =>
    cases h : before y x with
    | true =>
      simp only [insertSorted, h, if_true, List.mem_cons, ih]
      tauto
    | false =>
      simp only [insertSorted, h, Bool.false_eq_true, if_false, List.mem_cons]

theorem mem_stableSort {α : Type} (before : α → α → Bool) (a : α) :
    ∀ l : List α, a ∈ stableSort before l ↔ a ∈ l := by
  intro l
  induction l with
  | nil => simp [stableSort]
  | cons y ys ih =>
    simp only [stableSort, List.foldr_cons, List.mem_cons]
    rw [mem_insertSorted]
    simp only [stableSort] at ih
    rw [ih]

theorem stableSort_cons {α : Type} (before : α → α → Bool) (x : α) (l : List α) :
    stableSort before (x :: l) = insertSorted before x (stableSort before l) := rfl

/-- Inserting an element that no list element strictly precedes puts it
at the head. -/
theorem insertSorted_eq_cons {α : Type} (before : α → α → Bool) (x : α)
    (l : List α) (h : ∀ y ∈ l, before y x = false) :
    insertSorted before x l = x :: l := by
  cases l with
  | nil => rfl
  | cons y ys =>
    have hy : before y x = false := h y (List.mem_cons_self y ys)
    simp [insertSorted, hy]

/-- Sortedness: in the output, no element strictly precedes an element
placed earlier.  Requires asymmetry and cotransitivity of `before`,
which hold for every comparator key used in this codebase. -/
theorem pairwise_insertSorted {α : Type} (before : α → α → Bool)
    (hA : ∀ a b, before a b = true → before b a = false)
    (hC : ∀ a b c, before a c = true → before a b = true ∨ before b c = true)
    (x : α) :
    ∀ l : List α, List.Pairwise (fun a b => before b a = false) l →
      List.Pairwise (fun a b => before b a = false) (insertSorted before x l) := by
  intro l
  induction l with
  | nil =>
    intro _
    simp [insertSorted]
  | cons y ys ih =>
    intro hp
    rw [List.pairwise_cons] at hp
    obtain ⟨hy, hys⟩ := hp
    cases h : before y x with
    | true =>
      simp only [insertSorted, h, if_true]
      rw [List.pairwise_cons]
      constructor
      · intro z hz
        rw [mem_insertSorted] at hz
        rcases hz with rfl | hz
        · exact hA y z h
        · exact hy z hz
      · exact ih hys
    | false =>
      simp only [insertSorted, h, Bool.false_eq_true, if_false]
      rw [List.pairwise_cons]
      constructor
      · intro z hz
        rcases List.mem_cons.mp hz with rfl | hz
        · exact h
        · by_contra hzx
          rw [Bool.not_eq_false] at hzx
          rcases hC z y x hzx with hzy | hyx
          · rw [hy z hz] at hzy
            exact Bool.false_ne_true hzy
          · rw [h] at hyx
            exact Bool.false_ne_true hyx
      · exact List.Pairwise.cons hy hys

theorem pairwise_stableSort {α : Type} (before : α → α → Bool)
    (hA : ∀ a b, before a b = true → before b a = false)
    (hC : ∀ a b c, before a c = true → before a b = true ∨ before b c = true) :
    ∀ l : List α,
      List.Pairwise (fun a b => before b a = false) (stableSort before l) := by
  intro l
  induction l with
  | nil => simp [stableSort]
  | cons y ys ih =>
    rw [stableSort_cons]
    exact pairwise_insertSorted before hA hC y _ ih

/-- Inserting an element into a sorted list keeps the head of the list
whenever some list element strictly precedes the inserted one. -/
theorem insertSorted_head_of_exists {α : Type} (before : α → α → Bool)
    (hC : ∀ a b c, before a c = true → before a b = true ∨ before b c = true)
    (x y : α) (ys : List α)
    (hp : List.Pairwise (fun a b => before b a = false) (y :: ys))
    (hex : ∃ z ∈ y :: ys, before z x = true) :
    insertSorted before x (y :: ys) = y :: insertSorted before x ys := by
  have hyx : before y x = true := by
    by_contra hyx
    rw [Bool.not_eq_true] at hyx
    obtain ⟨z, hz, hzx⟩ := hex
    rcases List.mem_cons.mp hz with rfl | hz
    · rw [hyx] at hzx
      exact Bool.false_ne_true hzx
    · rcases hC z y x hzx with hzy | h2
      · rw [List.pairwise_cons] at hp
        rw [hp.1 z hz] at hzy
        exact Bool.false_ne_true hzy
      · rw [hyx] at h2
        exact Bool.false_ne_true h2
  simp [insertSorted, hyx]

/-! ### Armor scorer (`src/analysis/armor-scorer.ts`) -/

/-- A weight per stat dimension (the `weights` record of `StatProfile`).
The JS literals are short decimals, represented exactly in `ℚ`. -/
structure StatWeights where
  mobility : ℚ
  resilience : ℚ
  recovery : ℚ
  discipline : ℚ
  intellect : ℚ
  strength : ℚ
  deriving DecidableEq, Repr, Inhabited

/-- A named archetype profile (`StatProfile`). -/
structure StatProfile where
  name : String
  description : String
  weights : StatWeights
  deriving DecidableEq, Repr, Inhabited

/-- The built-in `STAT_PROFILES` record, as an association list in the
enumeration order of the source object literal (JS object-key order). -/
def STAT_PROFILES : List (String × StatProfile) :=
  [ ("pvp_hunter",
     { name := "PvP Hunter"
       description := "High mobility and recovery for Crucible"
       weights := { mobility := 1.5, resilience := 1.2, recovery := 1.3,
                    discipline := 0.8, intellect := 0.7, strength := 0.5 } }),
    ("pvp_titan",
     { name := "PvP Titan"
       description := "High resilience with recovery focus"
       weights := { mobility := 0.5, resilience := 1.5, recovery := 1.3,
                    discipline := 0.8, intellect := 0.7, strength := 0.7 } }),
    ("pvp_warlock",
     { name := "PvP Warlock"
       description := "Recovery focused with resilience"
       weights := { mobility := 0.5, resilience := 1.3, recovery := 1.5,
                    discipline := 0.9, intellect := 0.7, strength := 0.5 } }),
    ("pve_ability",
     { name := "PvE Ability Spam"
       description := "Maximum ability regeneration"
       weights := { mobility := 0.3, resilience := 1.0, recovery := 0.8,
                    discipline := 1.5, intellect := 0.5, strength := 1.3 } }),
    ("pve_balanced",
     { name := "PvE Balanced"
       description := "Well-rounded for general PvE"
       weights := { mobility := 0.5, resilience := 1.2, recovery := 1.0,
                    discipline := 1.2, intellect := 0.6, strength := 0.8 } }),
    ("gm_nightfall",
     { name := "GM Nightfall"
       description := "Survival focused with discipline"
       weights := { mobility := 0.3, resilience := 1.5, recovery := 1.2,
                    discipline := 1.3, intellect := 0.5, strength := 0.5 } }) ]

/-- The scorer's `customThresholds` field. -/
structure ScorerThresholds where
  minTotalStats : Nat
  goodTotalStats : Nat
  excellentTotalStats : Nat
  spikeThreshold : Nat
  superSpikeThreshold : Nat
  weakStatThreshold : Nat
  deriving DecidableEq, Repr, Inhabited

/-- The threshold values assigned in the `ArmorScorer` class body. -/
def customThresholds : ScorerThresholds :=
  { minTotalStats := 60
    goodTotalStats := 65
    excellentTotalStats := 68
    spikeThreshold := 20
    superSpikeThreshold := 26
    weakStatThreshold := 6 }

/-- Qualitative analysis of a stat vector (`ArmorAnalysis`). -/
structure ArmorAnalysis where
  totalStats : Nat
  hasSpike : Bool
  hasSuperSpike : Bool
  topStats : List (String × Nat)
  weakStats : List (String × Nat)
  isWellDistributed : Bool
  artificeSlot : Bool
  deriving DecidableEq, Repr, Inhabited

/-- Overall armor score (`ArmorScore`); `profileScores` is a `Map` in
source, modelled as an association list in insertion order. -/
structure ArmorScore where
  totalScore : Int
  profileScores : List (String × ℚ)
  bestProfile : String
  bestProfileScore : ℚ
  analysis : ArmorAnalysis
  deriving DecidableEq, Repr, Inhabited

/-- The `statValues` array built at the top of `analyzeStats`. -/
def statValues (stats : ArmorStats) : List (String × Nat) :=
  [ ("Mobility", stats.mobility),
    ("Resilience", stats.resilience),
    ("Recovery", stats.recovery),
    ("Discipline", stats.discipline),
    ("Intellect", stats.intellect),
    ("Strength", stats.strength) ]

/-- `ArmorScorer.analyzeStats`. -/
def analyzeStats (stats : ArmorStats) : ArmorAnalysis :=
  let vals := statValues stats
  let sorted := stableSort (fun a b => decide (b.2 < a.2)) vals
  let topStats := sorted.take 2
  let weakStats := vals.filter (fun s => decide (s.2 ≤ customThresholds.weakStatThreshold))
  let hasSpike := vals.any (fun s => decide (customThresholds.spikeThreshold ≤ s.2))
  let hasSuperSpike := vals.any (fun s => decide (customThresholds.superSpikeThreshold ≤ s.2))
  let minStat := min stats.mobility (min stats.resilience (min stats.recovery
    (min stats.discipline (min stats.intellect stats.strength))))
  let maxStat := max stats.mobility (max stats.resilience (max stats.recovery
    (max stats.discipline (max stats.intellect stats.strength))))
  let isWellDistributed := decide (6 ≤ minStat) && decide (maxStat - minStat ≤ 15)
  { totalStats := stats.total
    hasSpike := hasSpike
    hasSuperSpike := hasSuperSpike
    topStats := topStats
    weakStats := weakStats
    isWellDistributed := isWellDistributed
    artificeSlot := false }

/-- `ArmorScorer.calculateProfileScore`: weighted average of the six
stats, rounded to one decimal (`Math.round(x * 10) / 10`). -/
def calculateProfileScore (stats : ArmorStats) (profile : StatProfile) : ℚ :=
  let w := profile.weights
  let weightedSum : ℚ :=
    (stats.mobility : ℚ) * w.mobility +
    (stats.resilience : ℚ) * w.resilience +
    (stats.recovery : ℚ) * w.recovery +
    (stats.discipline : ℚ) * w.discipline +
    (stats.intellect : ℚ) * w.intellect +
    (stats.strength : ℚ) * w.strength
  let totalWeight : ℚ :=
    w.mobility + w.resilience + w.recovery + w.discipline + w.intellect + w.strength
  ((round ((weightedSum / totalWeight) * 10) : ℤ) : ℚ) / 10

/-- `ArmorScorer.calculateTotalScore`: tiered base from total stats,
spike bonus, distribution bonus, weak-stat penalty, top-stat bonus,
then `Math.max(0, Math.min(100, Math.round(score)))`. -/
def calculateTotalScore (stats : ArmorStats) (analysis : ArmorAnalysis) : Int :=
  let base : ℚ :=
    if customThresholds.excellentTotalStats ≤ stats.total then 40
    else if customThresholds.goodTotalStats ≤ stats.total then 30
    else if customThresholds.minTotalStats ≤ stats.total then 20
    else max 0 (((stats.total : ℚ) / (customThresholds.minTotalStats : ℚ)) * 20)
  let withSpike : ℚ :=
    base + (if analysis.hasSuperSpike then 30 else if analysis.hasSpike then 20 else 0)
  let withDist : ℚ :=
    withSpike + (if analysis.isWellDistributed then 15 else 0)
  let withPenalty : ℚ :=
    withDist - ((min (analysis.weakStats.length * 5) 15 : Nat) : ℚ)
  let topStatSum : Nat := analysis.topStats.foldl (fun sum s => sum + s.2) 0
  let final : ℚ :=
    withPenalty +
      (if 45 ≤ topStatSum then 15 else if 40 ≤ topStatSum then 10
       else if 35 ≤ topStatSum then 5 else 0)
  max 0 (min 100 (round final))

/-- `ArmorScorer.scoreArmor`: null unless the item is armor with stats;
otherwise analysis, per-profile scores (iterated in `Map` insertion
order), best profile by strict improvement, and the total score. -/
def scoreArmor (profiles : List (String × StatProfile)) (item : InventoryItem) :
    Option ArmorScore :=
  if item.itemType ≠ ItemType.armor then none
  else
    match item.stats with
    | none => none
    | some stats =>
      let analysis := analyzeStats stats
      let profileScores := profiles.map (fun p => (p.1, calculateProfileScore stats p.2))
      let best := profiles.foldl (fun best p =>
        let score := calculateProfileScore stats p.2
        if best.2 < score then (p.1, score) else best) ("", 0)
      some { totalScore := calculateTotalScore stats analysis
             profileScores := profileScores
             bestProfile := best.1
             bestProfileScore := best.2
             analysis := analysis }

/-- Result record of `ArmorScorer.compareArmor`. -/
structure ComparisonResult where
  winner : Option InventoryItem
  reason : String
  score1 : Option ArmorScore
  score2 : Option ArmorScore
  deriving DecidableEq, Repr, Inhabited

/-- `ArmorScorer.compareArmor`. -/
def compareArmor (profiles : List (String × StatProfile))
    (item1 item2 : InventoryItem) : ComparisonResult :=
  let score1 := scoreArmor profiles item1
  let score2 := scoreArmor profiles item2
  match score1, score2 with
  | none, none =>
    { winner := none, reason := "Neither item has stats", score1 := none, score2 := none }
  | none, some s2 =>
    { winner := some item2, reason := "First item has no stats",
      score1 := none, score2 := some s2 }
  | some s1, none =>
    { winner := some item1, reason := "Second item has no stats",
      score1 := some s1, score2 := none }
  | some s1, some s2 =>
    let scoreDiff : Int := s1.totalScore - s2.totalScore
    if |scoreDiff| < 5 then
      if s1.bestProfileScore > s2.bestProfileScore + 2 then
        { winner := some item1,
          reason := "Better for " ++ s1.bestProfile ++ " builds (" ++
            toString s1.bestProfileScore ++ " vs " ++ toString s2.bestProfileScore ++ ")",
          score1 := some s1, score2 := some s2 }
      else if s2.bestProfileScore > s1.bestProfileScore + 2 then
        { winner := some item2,
          reason := "Better for " ++ s2.bestProfile ++ " builds (" ++
            toString s2.bestProfileScore ++ " vs " ++ toString s1.bestProfileScore ++ ")",
          score1 := some s1, score2 := some s2 }
      else
        { winner := none,
          reason := "Too close to call (" ++ toString s1.totalScore ++ " vs " ++
            toString s2.totalScore ++ ")",
          score1 := some s1, score2 := some s2 }
    else
      let winner := if scoreDiff > 0 then item1 else item2
      let winnerScore := if scoreDiff > 0 then s1 else s2
      let loserScore := if scoreDiff > 0 then s2 else s1
      { winner := some winner,
        reason := "Higher overall score (" ++ toString winnerScore.totalScore ++
          " vs " ++ toString loserScore.totalScore ++ ")",
        score1 := some s1, score2 := some s2 }

/-- JavaScript `Array.prototype.join(sep)`: empty string on the empty
list, no trailing separator otherwise. -/
def joinSep (sep : String) : List String → String
  | [] => ""
  | [a] => a
  | a :: rest => a ++ sep ++ joinSep sep rest

/-! ### Cleanup planner (`src/planner/cleanup-planner.ts`)

The planner's `armorScorer` field is `new ArmorScorer()` with no custom
profiles registered, so every scorer call below uses `STAT_PROFILES`. -/

/-- `CleanupPlanner.hasBetterDuplicate`. -/
def hasBetterDuplicate (item : InventoryItem) (allItems : List InventoryItem) : Bool :=
  let duplicates := allItems.filter (fun i =>
    decide (i.itemHash = item.itemHash) &&
    decide (¬ i.itemInstanceId = item.itemInstanceId) &&
    decide (i.itemType = ItemType.armor))
  if duplicates.isEmpty then false
  else
    match scoreArmor STAT_PROFILES item with
    | none => false
    | some itemScore =>
      duplicates.any (fun dupe =>
        match scoreArmor STAT_PROFILES dupe with
        | some dupeScore => decide (itemScore.totalScore + 10 < dupeScore.totalScore)
        | none => false)

/-- `CleanupPlanner.analyzeArmor`.  The two scrutinees move together:
`scoreArmor` is `some` exactly when the item is armor and `stats` is
present, so the fallback branch is the source's "no stats" path. -/
def analyzeArmor (rules : ProtectionRules) (item : InventoryItem)
    (allItems : List InventoryItem) (existingReasons : List String) :
    CleanupRecommendation :=
  match scoreArmor STAT_PROFILES item, item.stats with
  | some armorScore, some st =>
    let score := armorScore.totalScore
    if rules.protectHighStatArmor && decide (rules.highStatThreshold ≤ st.total) then
      { item := item, action := RecAction.KEEP
        reason := "High stat armor (" ++ toString st.total ++ " total)"
        score := some score
        protectedBy := ["High stats: " ++ toString st.total ++ " total"] }
    else if 75 ≤ score then
      { item := item, action := RecAction.KEEP
        reason := joinSep ". "
          (existingReasons ++ ["Excellent armor score: " ++ toString score ++ "/100"])
        score := some score }
    else if 50 ≤ score then
      if hasBetterDuplicate item allItems then
        { item := item, action := RecAction.REVIEW
          reason := joinSep ". "
            (existingReasons ++ ["Decent armor score: " ++ toString score ++ "/100",
              "Better duplicate exists"])
          score := some score }
      else
        { item := item, action := RecAction.KEEP
          reason := joinSep ". "
            (existingReasons ++ ["Decent armor score: " ++ toString score ++ "/100"])
          score := some score }
    else if 30 ≤ score then
      { item := item, action := RecAction.REVIEW
        reason := joinSep ". "
          (existingReasons ++ ["Below average armor score: " ++ toString score ++ "/100"])
        score := some score }
    else
      { item := item, action := RecAction.JUNK
        reason := joinSep ". "
          (existingReasons ++ ["Poor armor score: " ++ toString score ++ "/100"])
        score := some score }
  | _, _ =>
    { item := item, action := RecAction.REVIEW
      reason := joinSep ". "
        (existingReasons ++ ["Unable to score (no stats)"]) }

/-- The weapon-duplicate comparator of `analyzeWeapon` and
`recommendWeapons`: masterworked first, then locked, then higher power
level, as the strict "precedes" relation. -/
def weaponBefore (a b : InventoryItem) : Bool :=
  if a.isMasterworked ≠ b.isMasterworked then a.isMasterworked
  else if a.isLocked ≠ b.isLocked then a.isLocked
  else decide (b.powerLevel < a.powerLevel)

/-- The duplicates filter at the top of `analyzeWeapon`: every other
candidate with the same definition hash and a different instance id. -/
def weaponDuplicates (item : InventoryItem) (allItems : List InventoryItem) :
    List InventoryItem :=
  allItems.filter (fun i =>
    decide (i.itemHash = item.itemHash) &&
    decide (¬ i.itemInstanceId = item.itemInstanceId))

/-- `CleanupPlanner.analyzeWeapon`. -/
def analyzeWeapon (item : InventoryItem) (allItems : List InventoryItem)
    (existingReasons : List String) : CleanupRecommendation :=
  let duplicates := weaponDuplicates item allItems
  if duplicates.isEmpty then
    { item := item, action := RecAction.KEEP
      reason := joinSep ". " (existingReasons ++ ["Only copy of this weapon"]) }
  else
    let allCopies := item :: duplicates
    let sorted := stableSort weaponBefore allCopies
    let bestCopy := sorted.headD item
    if bestCopy.itemInstanceId = item.itemInstanceId then
      { item := item, action := RecAction.KEEP
        reason := joinSep ". "
          (existingReasons ++ ["Best copy among " ++ toString allCopies.length ++ " duplicates"]) }
    else
      { item := item, action := RecAction.JUNK
        reason := joinSep ". "
          (existingReasons ++ ["Duplicate (" ++ toString duplicates.length ++ " others exist)",
            "Not the best copy"]) }

/-- The protection accumulation at the top of `analyzeItem`: every
matching rule appends its reason, in source order (DIM loadouts, lock,
masterwork, exotic, custom list, then the favorite/keep tag overlay). -/
def protectionReasons (rules : ProtectionRules) (dimParser : DIMParser)
    (item : InventoryItem) : List String :=
  (if rules.protectDIMLoadouts && dimParser.loaded then
    (let loadouts := dimParser.getLoadoutsForItem item.itemInstanceId
     if 0 < loadouts.length then
       ["DIM Loadouts: " ++ joinSep ", " (loadouts.map (fun l => l.name))]
     else [])
   else []) ++
  (if rules.protectLockedItems && item.isLocked then ["Locked in game"] else []) ++
  (if rules.protectMasterworked && item.isMasterworked then ["Masterworked"] else []) ++
  (if rules.protectExotics && decide (item.tier = ItemTier.Exotic) then ["Exotic item"]
   else []) ++
  (if rules.customProtectedIds.contains item.itemInstanceId then ["Custom protection"]
   else []) ++
  (if dimParser.loaded then
    (match dimParser.getTag item.itemInstanceId with
     | some "favorite" => ["DIM Favorite"]
     | some "keep" => ["DIM Keep tag"]
     | _ => [])
   else [])

/-- The junk-tag overlay of `analyzeItem`: a `junk` tag contributes an
explanatory note to the reason accumulator and nothing else. -/
def junkTagNote (dimParser : DIMParser) (item : InventoryItem) : List String :=
  if dimParser.loaded then
    (match dimParser.getTag item.itemInstanceId with
     | some "junk" => ["Tagged as junk in DIM"]
     | _ => [])
  else []

/-- `CleanupPlanner.analyzeItem`: accumulate every matching protection
reason, overlay the DIM tag (favorite/keep protect, junk only annotates),
then force KEEP when protected, else dispatch by item category. -/
def analyzeItem (rules : ProtectionRules) (dimParser : DIMParser)
    (item : InventoryItem) (allItems : List InventoryItem) :
    CleanupRecommendation :=
  let protectedBy : List String := protectionReasons rules dimParser item
  let reasons : List String := junkTagNote dimParser item
  if 0 < protectedBy.length then
    { item := item, action := RecAction.KEEP
      reason := "Protected: " ++ joinSep ", " protectedBy
      protectedBy := protectedBy }
  else if item.itemType = ItemType.armor then
    analyzeArmor rules item allItems reasons
  else
    analyzeWeapon item allItems reasons

/-- Sort rank used when ordering the recommendation list:
JUNK first, then REVIEW, then KEEP. -/
def actionOrder : RecAction → Nat
  | RecAction.JUNK => 0
  | RecAction.REVIEW => 1
  | RecAction.KEEP => 2

/-- `CleanupPlanner.generatePlan` (minus the `generatedAt := new Date()`
timestamp, which is wall-clock I/O outside the pure model). -/
def generatePlan (planner : CleanupPlanner) (items : List InventoryItem) :
    CleanupPlan :=
  let targetItems := items.filter (fun item =>
    !(planner.config.onlyVault && decide (¬ item.location = ItemLocation.Vault)) &&
    (decide (item.itemType = ItemType.weapon) || decide (item.itemType = ItemType.armor)))
  let recommendations := targetItems.map (fun item =>
    analyzeItem planner.protectionRules planner.dimParser item targetItems)
  let sortedRecs := stableSort
    (fun a b => decide (actionOrder a.action < actionOrder b.action)) recommendations
  { summary :=
      { totalAnalyzed := sortedRecs.length
        keep := (sortedRecs.filter (fun r => decide (r.action = RecAction.KEEP))).length
        review := (sortedRecs.filter (fun r => decide (r.action = RecAction.REVIEW))).length
        junk := (sortedRecs.filter (fun r => decide (r.action = RecAction.JUNK))).length
        protectedItems :=
          (sortedRecs.filter (fun r => decide (0 < r.protectedBy.length))).length }
    recommendations := sortedRecs }

/-! ### Duplicate finder (`src/analysis/duplicate-finder.ts`) -/

/-- `DuplicateFinderOptions`. -/
structure DuplicateFinderOptions where
  includeWeapons : Bool
  includeArmor : Bool
  minDuplicates : Nat
  keepCount : Nat
  deriving DecidableEq, Repr, Inhabited

/-- `DEFAULT_OPTIONS` of the duplicate finder. -/
def DEFAULT_OPTIONS : DuplicateFinderOptions :=
  { includeWeapons := true
    includeArmor := true
    minDuplicates := 2
    keepCount := 1 }

/-- Per-group recommendation (`DuplicateRecommendation`). -/
structure DuplicateRecommendation where
  keep : List InventoryItem
  discard : List InventoryItem
  review : List InventoryItem
  reasoning : String
  deriving DecidableEq, Repr, Inhabited

/-- A group of same-definition items (`DuplicateGroup`). -/
structure DuplicateGroup where
  itemHash : Nat
  name : String
  slot : Option Nat
  classType : Option Nat
  items : List InventoryItem
  recommendation : DuplicateRecommendation
  deriving DecidableEq, Repr, Inhabited

/-- The JS `Map.get`-or-create-then-`set` step of the grouping loop:
append the item to its hash's group, keeping the map's insertion order.
The source keys the map by `itemHash.toString()` and later applies
`parseInt`; since decimal printing is injective on numbers the key is
modelled by the hash itself. -/
def upsertGroup (key : Nat) (item : InventoryItem) :
    List (Nat × List InventoryItem) → List (Nat × List InventoryItem)
  | [] => [(key, [item])]
  | (k, g) :: rest =>
    if k = key then (k, g ++ [item]) :: rest else (k, g) :: upsertGroup key item rest

/-- One iteration of the grouping loop of `findDuplicates`: skip
categories that are excluded by the options, always skip `other`, group
the rest by hash. -/
def groupStep (options : DuplicateFinderOptions)
    (groups : List (Nat × List InventoryItem)) (item : InventoryItem) :
    List (Nat × List InventoryItem) :=
  if decide (item.itemType = ItemType.weapon) && !options.includeWeapons then groups
  else if decide (item.itemType = ItemType.armor) && !options.includeArmor then groups
  else if decide (item.itemType = ItemType.other) then groups
  else upsertGroup item.itemHash item groups

/-- The grouping loop of `findDuplicates`. -/
def buildGroups (options : DuplicateFinderOptions) (items : List InventoryItem) :
    List (Nat × List InventoryItem) :=
  items.foldl (groupStep options) []

/-- Accumulator of the "remaining scored items" loop in `recommendArmor`. -/
structure ArmorRecAcc where
  discard : List InventoryItem
  review : List InventoryItem
  reasons : List String
  deriving DecidableEq, Repr, Inhabited

/-- String form of `score?.totalScore` interpolation (JS prints
`undefined` for a missing score). -/
def scoreText : Option ArmorScore → String
  | some sc => toString sc.totalScore
  | none => "undefined"

/-- String form of `item.stats?.total` interpolation. -/
def statsTotalText (item : InventoryItem) : String :=
  match item.stats with
  | some st => toString st.total
  | none => "undefined"

/-- `DuplicateFinder.recommendArmor`. -/
def recommendArmor (options : DuplicateFinderOptions)
    (items : List InventoryItem) : DuplicateRecommendation :=
  let scored := items.map (fun item => (item, scoreArmor STAT_PROFILES item))
  let withScores := scored.filter (fun s => s.2.isSome)
  let withoutScores := scored.filter (fun s => s.2.isNone)
  let withScores := stableSort (fun a b =>
    decide ((b.2.map (fun sc => sc.totalScore)).getD 0 <
            (a.2.map (fun sc => sc.totalScore)).getD 0)) withScores
  let keepPairs := withScores.take options.keepCount
  let keep := keepPairs.map (fun s => s.1)
  let keepReasons := keepPairs.map (fun s =>
    "Keep " ++ s.1.name ++ " (score: " ++ scoreText s.2 ++ ", stats: " ++
      statsTotalText s.1 ++ ")")
  let bestScore := (withScores.headD (Inhabited.default, none)).2
  let rest := withScores.drop options.keepCount
  let acc := rest.foldl (fun (acc : ArmorRecAcc) s =>
    match bestScore, s.2 with
    | some best, some score =>
      if 15 < best.totalScore - score.totalScore then
        { acc with discard := acc.discard ++ [s.1]
                   reasons := acc.reasons ++ ["Discard " ++ s.1.name ++ " (score: " ++
                     toString score.totalScore ++ ", significantly worse than best)"] }
      else if 60 ≤ score.totalScore then
        { acc with review := acc.review ++ [s.1]
                   reasons := acc.reasons ++ ["Review " ++ s.1.name ++ " (score: " ++
                     toString score.totalScore ++ ", may be useful for specific builds)"] }
      else
        { acc with discard := acc.discard ++ [s.1]
                   reasons := acc.reasons ++ ["Discard " ++ s.1.name ++ " (score: " ++
                     toString score.totalScore ++ ", low quality)"] }
    | _, some score =>
      if 60 ≤ score.totalScore then
        { acc with review := acc.review ++ [s.1]
                   reasons := acc.reasons ++ ["Review " ++ s.1.name ++ " (score: " ++
                     toString score.totalScore ++ ", may be useful for specific builds)"] }
      else
        { acc with discard := acc.discard ++ [s.1]
                   reasons := acc.reasons ++ ["Discard " ++ s.1.name ++ " (score: " ++
                     toString score.totalScore ++ ", low quality)"] }
    | _, none =>
      { acc with discard := acc.discard ++ [s.1]
                 reasons := acc.reasons ++ ["Discard " ++ s.1.name ++
                   " (score: 0, low quality)"] })
    { discard := [], review := [], reasons := keepReasons }
  let reviewWithNoScores := acc.review ++ withoutScores.map (fun s => s.1)
  let reasonsWithNoScores := acc.reasons ++ withoutScores.map (fun s =>
    "Review " ++ s.1.name ++ " (no stats available)")
  let final := acc.discard.foldl (fun (acc : ArmorRecAcc) item =>
    if item.isLocked || item.isMasterworked then
      { acc with review := acc.review ++ [item]
                 reasons := acc.reasons ++ ["Moved " ++ item.name ++ " to review (" ++
                   (if item.isLocked then "locked" else "masterworked") ++ ")"] }
    else
      { acc with discard := acc.discard ++ [item] })
    { discard := [], review := reviewWithNoScores, reasons := reasonsWithNoScores }
  { keep := keep
    discard := final.discard
    review := final.review
    reasoning := joinSep "\n" final.reasons }

/-- `DuplicateFinder.recommendWeapons`. -/
def recommendWeapons (options : DuplicateFinderOptions)
    (items : List InventoryItem) : DuplicateRecommendation :=
  let sorted := stableSort weaponBefore items
  let keep := sorted.take options.keepCount
  let remaining := sorted.drop options.keepCount
  let review := remaining.filter (fun i => i.isLocked || i.isMasterworked)
  let discard := remaining.filter (fun i => !(i.isLocked || i.isMasterworked))
  let reasoning := joinSep "\n" ((
    [ "Keep " ++ joinSep ", " (keep.map (fun i =>
        i.name ++ " (PL: " ++ toString i.powerLevel ++
          (if i.isMasterworked then ", MW" else "") ++ ")")),
      if 0 < discard.length then
        "Discard " ++ toString discard.length ++ " lower-priority duplicates"
      else "",
      if 0 < review.length then
        "Review " ++ toString review.length ++ " items (locked or masterworked)"
      else "" ]).filter (fun s => !(s = "")))
  { keep := keep, discard := discard, review := review, reasoning := reasoning }

/-- `DuplicateFinder.generateRecommendation`: dispatch on the category of
the first group member. -/
def generateRecommendation (options : DuplicateFinderOptions)
    (items : List InventoryItem) : DuplicateRecommendation :=
  if (items.headD Inhabited.default).itemType = ItemType.armor then
    recommendArmor options items
  else
    recommendWeapons options items

/-- `DuplicateFinder.findDuplicates`: group by hash, drop groups below
`minDuplicates`, attach recommendations, sort by descending group
size. -/
def findDuplicates (options : DuplicateFinderOptions)
    (items : List InventoryItem) : List DuplicateGroup :=
  let groups := buildGroups options items
  let duplicateGroups := (groups.filter (fun g =>
    decide (options.minDuplicates ≤ g.2.length))).map (fun g =>
      let firstItem := g.2.headD Inhabited.default
      { itemHash := g.1
        name := firstItem.name
        slot := firstItem.armorSlot
        classType := firstItem.classType
        items := g.2
        recommendation := generateRecommendation options g.2 })
  stableSort (fun a b => decide (b.items.length < a.items.length)) duplicateGroups

/-! ### Helper lemmas about the scorer -/

theorem scoreArmor_eq_some (profiles : List (String × StatProfile))
    (item : InventoryItem) (s : ArmorStats)
    (htype : item.itemType = ItemType.armor) (hstats : item.stats = some s) :
    scoreArmor profiles item = some
      { totalScore := calculateTotalScore s (analyzeStats s)
        profileScores := profiles.map (fun p => (p.1, calculateProfileScore s p.2))
        bestProfile := (profiles.foldl (fun best p =>
          let score := calculateProfileScore s p.2
          if best.2 < score then (p.1, score) else best) ("", 0)).1
        bestProfileScore := (profiles.foldl (fun best p =>
          let score := calculateProfileScore s p.2
          if best.2 < score then (p.1, score) else best) ("", 0)).2
        analysis := analyzeStats s } := by
  simp [scoreArmor, htype, hstats]

theorem scoreArmor_eq_none (profiles : List (String × StatProfile))
    (item : InventoryItem) (hstats : item.stats = none) :
    scoreArmor profiles item = none := by
  simp [scoreArmor, hstats]

theorem scoreArmor_totalScore_eq (profiles : List (String × StatProfile))
    (item : InventoryItem) (s : ArmorStats) (ts : Int)
    (htype : item.itemType = ItemType.armor) (hstats : item.stats = some s)
    (hcalc : calculateTotalScore s (analyzeStats s) = ts) :
    (scoreArmor profiles item).map (fun sc => sc.totalScore) = some ts := by
  rw [scoreArmor_eq_some profiles item s htype hstats]
  simpa using hcalc

theorem calculateTotalScore_bounds (s : ArmorStats) (a : ArmorAnalysis) :
    0 ≤ calculateTotalScore s a ∧ calculateTotalScore s a ≤ 100 := by
  constructor
  · exact le_max_left 0 _
  · exact max_le (by norm_num) (min_le_left _ _)

/-! ### Concrete items used by witnesses and counterexamples -/

/-- The stat vector of spec scenario A. -/
def statsA : ArmorStats :=
  { mobility := 2, resilience := 20, recovery := 26, discipline := 15,
    intellect := 6, strength := 8, total := 77 }

/-- An armor piece carrying the scenario A stats. -/
def itemA : InventoryItem :=
  { itemInstanceId := "a1", itemHash := 100, name := "Scenario A Helm",
    itemType := ItemType.armor, tier := ItemTier.Legendary,
    location := ItemLocation.Vault, isEquipped := false, isLocked := false,
    isMasterworked := false, powerLevel := 1800, armorSlot := none,
    classType := none, stats := some statsA }

theorem analyzeStats_statsA :
    analyzeStats statsA =
      { totalStats := 77, hasSpike := true, hasSuperSpike := true,
        topStats := [("Recovery", 26), ("Resilience", 20)],
        weakStats := [("Mobility", 2), ("Intellect", 6)],
        isWellDistributed := false, artificeSlot := false } := by
  decide

theorem calculateTotalScore_statsA :
    calculateTotalScore statsA (analyzeStats statsA) = 75 := by
  rw [analyzeStats_statsA]
  norm_num [calculateTotalScore, customThresholds, statsA, round_eq]

/-! ### Claim C2 -/

/-- C2 counterexample: on the scenario A stats (Mobility 2, Resilience 20,
Recovery 26, Discipline 15, Intellect 6, Strength 8, total 77) the scorer
does not return 80, because two stats (Mobility 2 and Intellect 6) are at
or below the weak threshold 6, giving a penalty of −10 rather than the
−5 the claim asserts. -/
theorem scenarioA_score_ne_80 :
    (scoreArmor STAT_PROFILES itemA).map (fun sc => sc.totalScore) ≠ some 80 := by
  rw [scoreArmor_totalScore_eq STAT_PROFILES itemA statsA 75 rfl rfl
    calculateTotalScore_statsA]
  decide

/-- C2 amended: on the scenario A armor the total score is 75, composed of
base 40 (total 77 ≥ 68), super-spike bonus 30 (Recovery 26), distribution
bonus 0 (minimum stat 2 < 6), weak-stat penalty −10 (two stats at or below
6: Mobility 2 and Intellect 6) and top-stat bonus 15
(Recovery 26 + Resilience 20 = 46 ≥ 45). -/
theorem scenarioA_score_75 :
    (scoreArmor STAT_PROFILES itemA).map (fun sc => sc.totalScore) = some 75 ∧
    (analyzeStats statsA).hasSuperSpike = true ∧
    (analyzeStats statsA).isWellDistributed = false ∧
    (analyzeStats statsA).weakStats = [("Mobility", 2), ("Intellect", 6)] ∧
    (analyzeStats statsA).topStats.foldl (fun sum s => sum + s.2) 0 = 46 := by
  refine ⟨scoreArmor_totalScore_eq STAT_PROFILES itemA statsA 75 rfl rfl
    calculateTotalScore_statsA, ?_, ?_, ?_, ?_⟩ <;> decide

/-! ### Claim C3 -/

/-- C3: for every armor item with a stat vector (arbitrary non-negative
integer stats and total), `scoreArmor` returns a score whose total is an
integer between 0 and 100 inclusive. -/
theorem armor_score_in_range (item : InventoryItem) (s : ArmorStats)
    (htype : item.itemType = ItemType.armor) (hstats : item.stats = some s) :
    ∃ sc : ArmorScore, scoreArmor STAT_PROFILES item = some sc ∧
      0 ≤ sc.totalScore ∧ sc.totalScore ≤ 100 := by
  refine ⟨_, scoreArmor_eq_some STAT_PROFILES item s htype hstats, ?_, ?_⟩
  · exact (calculateTotalScore_bounds s (analyzeStats s)).1
  · exact (calculateTotalScore_bounds s (analyzeStats s)).2

/-- C3 witness: the range theorem applied to the concrete scenario A
armor piece. -/
theorem armor_score_in_range_witness :
    itemA.itemType = ItemType.armor ∧ itemA.stats = some statsA ∧
    ∃ sc : ArmorScore, scoreArmor STAT_PROFILES itemA = some sc ∧
      0 ≤ sc.totalScore ∧ sc.totalScore ≤ 100 :=
  ⟨rfl, rfl, armor_score_in_range itemA statsA rfl rfl⟩

/-! ### Claim C9 -/

/-- C9: `compareArmor` is anti-symmetric in winner selection: swapping the
two inputs yields the same winning underlying item (and ties stay ties),
while the two per-item score values are computed identically in both
calls. -/
theorem compareArmor_antisymm (profiles : List (String × StatProfile))
    (a b : InventoryItem) :
    (compareArmor profiles b a).winner = (compareArmor profiles a b).winner ∧
    (compareArmor profiles b a).score1 = (compareArmor profiles a b).score2 ∧
    (compareArmor profiles b a).score2 = (compareArmor profiles a b).score1 := by
  cases hsa : scoreArmor profiles a with
  | none =>
    cases hsb : scoreArmor profiles b with
    | none => simp [compareArmor, hsa, hsb]
    | some s2 => simp [compareArmor, hsa, hsb]
  | some s1 =>
    cases hsb : scoreArmor profiles b with
    | none => simp [compareArmor, hsa, hsb]
    | some s2 =>
      simp only [compareArmor, hsa, hsb]
      rw [abs_sub_comm s2.totalScore s1.totalScore]
      simp only [abs_lt]
      split_ifs <;>
        first
          | exact ⟨rfl, rfl, rfl⟩
          | (exfalso; omega)
          | (exfalso; linarith)

/-! ### Helper lemmas about the planner -/

theorem analyzeArmor_protectedBy_ne_nil (rules : ProtectionRules)
    (item : InventoryItem) (allItems : List InventoryItem)
    (existingReasons : List String) :
    (analyzeArmor rules item allItems existingReasons).protectedBy ≠ [] →
    (analyzeArmor rules item allItems existingReasons).action = RecAction.KEEP := by
  unfold analyzeArmor
  split
  next x1 x2 armorScore st heq1 heq2 =>
    intro h
    by_cases hhs :
      (rules.protectHighStatArmor && decide (rules.highStatThreshold ≤ st.total)) = true
    · rw [if_pos hhs]
    · exfalso
      apply h
      rw [if_neg hhs]
      split_ifs <;> rfl
  next => simp

theorem analyzeWeapon_protectedBy (item : InventoryItem)
    (allItems : List InventoryItem) (existingReasons : List String) :
    (analyzeWeapon item allItems existingReasons).protectedBy = [] := by
  simp only [analyzeWeapon]
  split_ifs <;> rfl

theorem weaponBefore_asymm (a b : InventoryItem) :
    weaponBefore a b = true → weaponBefore b a = false := by
  unfold weaponBefore
  cases hma : a.isMasterworked <;> cases hmb : b.isMasterworked <;>
    cases hla : a.isLocked <;> cases hlb : b.isLocked <;> simp_all <;> omega

theorem weaponBefore_cotrans (a b c : InventoryItem) :
    weaponBefore a c = true → weaponBefore a b = true ∨ weaponBefore b c = true := by
  unfold weaponBefore
  cases hma : a.isMasterworked <;> cases hmb : b.isMasterworked <;>
    cases hmc : c.isMasterworked <;> cases hla : a.isLocked <;>
    cases hlb : b.isLocked <;> cases hlc : c.isLocked <;> simp_all <;> omega

theorem weaponBefore_of_tie (y item : InventoryItem)
    (hm : y.isMasterworked = item.isMasterworked)
    (hl : y.isLocked = item.isLocked)
    (hp : y.powerLevel = item.powerLevel) :
    weaponBefore y item = false := by
  unfold weaponBefore
  simp [hm, hl, hp]

theorem weaponDuplicates_mem (item : InventoryItem)
    (allItems : List InventoryItem) (y : InventoryItem)
    (hy : y ∈ weaponDuplicates item allItems) :
    y.itemHash = item.itemHash ∧ ¬ y.itemInstanceId = item.itemInstanceId := by
  simp only [weaponDuplicates, List.mem_filter, Bool.and_eq_true,
    decide_eq_true_eq] at hy
  exact hy.2

theorem analyzeWeapon_eq_only_copy (item : InventoryItem)
    (allItems : List InventoryItem) (existingReasons : List String)
    (h : weaponDuplicates item allItems = []) :
    analyzeWeapon item allItems existingReasons =
      { item := item, action := RecAction.KEEP
        reason := joinSep ". " (existingReasons ++ ["Only copy of this weapon"]) } := by
  simp only [analyzeWeapon]
  rw [h]
  rfl

theorem analyzeWeapon_eq_best_copy (item : InventoryItem)
    (allItems : List InventoryItem) (existingReasons : List String)
    (hne : weaponDuplicates item allItems ≠ [])
    (h : ∀ y ∈ weaponDuplicates item allItems, weaponBefore y item = false) :
    analyzeWeapon item allItems existingReasons =
      { item := item, action := RecAction.KEEP
        reason := joinSep ". " (existingReasons ++
          ["Best copy among " ++
            toString (item :: weaponDuplicates item allItems).length ++ " duplicates"]) } := by
  unfold analyzeWeapon
  rw [if_neg (by simp [List.isEmpty_iff, hne])]
  have hsorted : stableSort weaponBefore (item :: weaponDuplicates item allItems) =
      item :: stableSort weaponBefore (weaponDuplicates item allItems) := by
    rw [stableSort_cons]
    exact insertSorted_eq_cons weaponBefore item _ (fun y hy =>
      h y ((mem_stableSort weaponBefore y _).mp hy))
  dsimp only
  rw [hsorted]
  simp

theorem analyzeWeapon_eq_junk (item : InventoryItem)
    (allItems : List InventoryItem) (existingReasons : List String)
    (h : ∃ y ∈ weaponDuplicates item allItems, weaponBefore y item = true) :
    analyzeWeapon item allItems existingReasons =
      { item := item, action := RecAction.JUNK
        reason := joinSep ". " (existingReasons ++
          ["Duplicate (" ++ toString (weaponDuplicates item allItems).length ++
            " others exist)", "Not the best copy"]) } := by
  have hne : weaponDuplicates item allItems ≠ [] := by
    obtain ⟨y, hy, _⟩ := h
    exact List.ne_nil_of_mem hy
  simp only [analyzeWeapon]
  rw [if_neg (by simp [List.isEmpty_iff, hne])]
  obtain ⟨y, hy, hby⟩ := h
  have hymem : y ∈ stableSort weaponBefore (weaponDuplicates item allItems) :=
    (mem_stableSort weaponBefore y _).mpr hy
  rcases hz : stableSort weaponBefore (weaponDuplicates item allItems) with _ | ⟨z, rest⟩
  · rw [hz] at hymem
    exact absurd hymem (List.not_mem_nil y)
  · have hpair : List.Pairwise (fun a b => weaponBefore b a = false) (z :: rest) := by
      rw [← hz]
      exact pairwise_stableSort weaponBefore weaponBefore_asymm weaponBefore_cotrans _
    have hhead : insertSorted weaponBefore item (z :: rest) =
        z :: insertSorted weaponBefore item rest := by
      apply insertSorted_head_of_exists weaponBefore weaponBefore_cotrans item z rest hpair
      rw [← hz]
      exact ⟨y, hymem, hby⟩
    have hzid : ¬ z.itemInstanceId = item.itemInstanceId := by
      have hzmem : z ∈ weaponDuplicates item allItems := by
        rw [← mem_stableSort weaponBefore z (weaponDuplicates item allItems), hz]
        exact List.mem_cons_self z rest
      exact (weaponDuplicates_mem item allItems z hzmem).2
    rw [stableSort_cons, hz, hhead]
    simp [hzid]

/-! ### Claim C1 -/

theorem analyzeItem_protected_keep (rules : ProtectionRules) (parser : DIMParser)
    (item : InventoryItem) (allItems : List InventoryItem) :
    (analyzeItem rules parser item allItems).protectedBy ≠ [] →
    (analyzeItem rules parser item allItems).action = RecAction.KEEP := by
  simp only [analyzeItem]
  split_ifs with h1 h2
  · intro _
    rfl
  · intro h
    exact analyzeArmor_protectedBy_ne_nil rules item allItems _ h
  · intro h
    exact absurd (analyzeWeapon_protectedBy item allItems _) h

/-- C1: every recommendation in a plan produced by `generatePlan` whose
protection-reason list is non-empty has action KEEP. -/
theorem protected_items_keep (planner : CleanupPlanner)
    (items : List InventoryItem) :
    ∀ r ∈ (generatePlan planner items).recommendations,
      r.protectedBy ≠ [] → r.action = RecAction.KEEP := by
  intro r hr
  unfold generatePlan at hr
  rw [mem_stableSort, List.mem_map] at hr
  obtain ⟨item, _, rfl⟩ := hr
  exact analyzeItem_protected_keep planner.protectionRules planner.dimParser item _

/-- A weapon used by several concrete scenarios. -/
def mkWeapon (id : String) (pl : Nat) : InventoryItem :=
  { itemInstanceId := id, itemHash := 500, name := "Gun",
    itemType := ItemType.weapon, tier := ItemTier.Legendary,
    location := ItemLocation.Vault, isEquipped := false, isLocked := false,
    isMasterworked := false, powerLevel := pl, armorSlot := none,
    classType := none, stats := none }

/-- A locked weapon (used to exercise the lock protection rule). -/
def itemL : InventoryItem :=
  { mkWeapon "L1" 1800 with isLocked := true }

/-- A parser with no backup loaded. -/
def noParser : DIMParser := { backup := none }

/-- C1 witness: in the plan for a single locked weapon under the default
rules, the recommendation is protected and kept. -/
theorem protected_items_keep_witness :
    ((generatePlan
        { dimParser := noParser, protectionRules := DEFAULT_PROTECTION_RULES,
          config := { includeCharacterInventory := false, onlyVault := true } }
        [itemL]).recommendations.headD default
      ∈ (generatePlan
        { dimParser := noParser, protectionRules := DEFAULT_PROTECTION_RULES,
          config := { includeCharacterInventory := false, onlyVault := true } }
        [itemL]).recommendations) ∧
    ((generatePlan
        { dimParser := noParser, protectionRules := DEFAULT_PROTECTION_RULES,
          config := { includeCharacterInventory := false, onlyVault := true } }
        [itemL]).recommendations.headD default).protectedBy ≠ [] ∧
    ((generatePlan
        { dimParser := noParser, protectionRules := DEFAULT_PROTECTION_RULES,
          config := { includeCharacterInventory := false, onlyVault := true } }
        [itemL]).recommendations.headD default).action = RecAction.KEEP :=
  ⟨by decide, by decide,
   protected_items_keep
     { dimParser := noParser, protectionRules := DEFAULT_PROTECTION_RULES,
       config := { includeCharacterInventory := false, onlyVault := true } }
     [itemL] _ (by decide) (by decide)⟩

/-! ### Claim C5 -/

/-- C5 counterexample: two same-definition copies that tie on the entire
ranking key (not masterworked, not locked, equal power) are each kept;
no copy is junked, so it is not the case that exactly the top of one
shared ranking is kept and every other copy junked. -/
theorem weapon_tie_counterexample :
    (analyzeWeapon (mkWeapon "t1" 1800) [mkWeapon "t1" 1800, mkWeapon "t2" 1800] []).action
      = RecAction.KEEP ∧
    (analyzeWeapon (mkWeapon "t2" 1800) [mkWeapon "t1" 1800, mkWeapon "t2" 1800] []).action
      = RecAction.KEEP := by
  decide

/-- C5 amended: an unprotected weapon with no same-definition duplicate is
kept as the only copy; with duplicates, a copy is kept exactly when no
other copy strictly precedes it on the (masterworked, locked, power) key
(so all fully tied copies are kept), is junked with reason "Not the best
copy" when some other copy strictly precedes it, and is never sent to
review. -/
theorem weapon_duplicate_resolution (item : InventoryItem)
    (allItems : List InventoryItem) (existingReasons : List String) :
    (weaponDuplicates item allItems = [] →
      analyzeWeapon item allItems existingReasons =
        { item := item, action := RecAction.KEEP
          reason := joinSep ". " (existingReasons ++ ["Only copy of this weapon"]) }) ∧
    (weaponDuplicates item allItems ≠ [] →
      (∀ y ∈ weaponDuplicates item allItems, weaponBefore y item = false) →
      (analyzeWeapon item allItems existingReasons).action = RecAction.KEEP) ∧
    ((∃ y ∈ weaponDuplicates item allItems, weaponBefore y item = true) →
      (analyzeWeapon item allItems existingReasons).action = RecAction.JUNK ∧
      (analyzeWeapon item allItems existingReasons).reason =
        joinSep ". " (existingReasons ++
          ["Duplicate (" ++ toString (weaponDuplicates item allItems).length ++
            " others exist)", "Not the best copy"])) ∧
    (analyzeWeapon item allItems existingReasons).action ≠ RecAction.REVIEW := by
  refine ⟨?_, ?_, ?_, ?_⟩
  · intro h
    exact analyzeWeapon_eq_only_copy item allItems existingReasons h
  · intro hne h
    rw [analyzeWeapon_eq_best_copy item allItems existingReasons hne h]
  · intro h
    rw [analyzeWeapon_eq_junk item allItems existingReasons h]
    exact ⟨rfl, rfl⟩
  · simp only [analyzeWeapon]
    split_ifs <;> simp

/-- C5 witness: scenario B, three copies at power 1810/1805/1800, none
locked or masterworked: the 1810 copy is kept, the other two junked with
reason "Not the best copy". -/
theorem weapon_duplicate_resolution_witness :
    (analyzeWeapon (mkWeapon "b1" 1810)
        [mkWeapon "b1" 1810, mkWeapon "b2" 1805, mkWeapon "b3" 1800] []).action
      = RecAction.KEEP ∧
    (analyzeWeapon (mkWeapon "b2" 1805)
        [mkWeapon "b1" 1810, mkWeapon "b2" 1805, mkWeapon "b3" 1800] []).action
      = RecAction.JUNK ∧
    (analyzeWeapon (mkWeapon "b3" 1800)
        [mkWeapon "b1" 1810, mkWeapon "b2" 1805, mkWeapon "b3" 1800] []).action
      = RecAction.JUNK ∧
    (analyzeWeapon (mkWeapon "b2" 1805)
        [mkWeapon "b1" 1810, mkWeapon "b2" 1805, mkWeapon "b3" 1800] []).reason
      = "Duplicate (2 others exist). Not the best copy" := by
  refine ⟨?_, ?_, ?_, ?_⟩
  · exact (weapon_duplicate_resolution (mkWeapon "b1" 1810)
      [mkWeapon "b1" 1810, mkWeapon "b2" 1805, mkWeapon "b3" 1800] []).2.1
      (by decide) (by decide)
  · exact ((weapon_duplicate_resolution (mkWeapon "b2" 1805)
      [mkWeapon "b1" 1810, mkWeapon "b2" 1805, mkWeapon "b3" 1800] []).2.2.1
      (by decide)).1
  · exact ((weapon_duplicate_resolution (mkWeapon "b3" 1800)
      [mkWeapon "b1" 1810, mkWeapon "b2" 1805, mkWeapon "b3" 1800] []).2.2.1
      (by decide)).1
  · rw [((weapon_duplicate_resolution (mkWeapon "b2" 1805)
      [mkWeapon "b1" 1810, mkWeapon "b2" 1805, mkWeapon "b3" 1800] []).2.2.1
      (by decide)).2]
    decide

/-! ### Claim C10 -/

/-- C10: when every same-definition copy of an unprotected weapon ties on
the full ranking key (equal masterwork, lock and power level), each copy
is kept as the best copy and none is junked, because each copy's ranking
is computed with itself first and the stable sort keeps it on top. -/
theorem weapon_full_tie_all_keep (item : InventoryItem)
    (allItems : List InventoryItem) (existingReasons : List String)
    (h : ∀ y ∈ weaponDuplicates item allItems,
      y.isMasterworked = item.isMasterworked ∧ y.isLocked = item.isLocked ∧
      y.powerLevel = item.powerLevel) :
    (analyzeWeapon item allItems existingReasons).action = RecAction.KEEP := by
  by_cases hemp : weaponDuplicates item allItems = []
  · rw [analyzeWeapon_eq_only_copy item allItems existingReasons hemp]
  · rw [analyzeWeapon_eq_best_copy item allItems existingReasons hemp (fun y hy =>
      weaponBefore_of_tie y item (h y hy).1 (h y hy).2.1 (h y hy).2.2)]

/-- C10 witness: two fully tied copies, each kept. -/
theorem weapon_full_tie_all_keep_witness :
    (analyzeWeapon (mkWeapon "u1" 1790) [mkWeapon "u1" 1790, mkWeapon "u2" 1790] []).action
      = RecAction.KEEP ∧
    (analyzeWeapon (mkWeapon "u2" 1790) [mkWeapon "u1" 1790, mkWeapon "u2" 1790] []).action
      = RecAction.KEEP :=
  ⟨weapon_full_tie_all_keep (mkWeapon "u1" 1790)
      [mkWeapon "u1" 1790, mkWeapon "u2" 1790] [] (by decide),
   weapon_full_tie_all_keep (mkWeapon "u2" 1790)
      [mkWeapon "u1" 1790, mkWeapon "u2" 1790] [] (by decide)⟩

/-! ### Claim C4 -/

/-- C4: for scorable unprotected armor below the high-stat threshold,
`analyzeArmor` maps the total score to an action: 75 and above keeps;
50 to 74 keeps unless a same-definition armor duplicate scores more than
10 points higher, which sends it to review; 30 to 49 reviews with the
"Below average armor score" reason; below 30 junks; and unscorable armor
(no stats) always goes to review. -/
theorem armor_tier_mapping (rules : ProtectionRules) (item : InventoryItem)
    (allItems : List InventoryItem) (existingReasons : List String) :
    (∀ s : ArmorStats, item.itemType = ItemType.armor → item.stats = some s →
      ¬ (rules.protectHighStatArmor = true ∧ rules.highStatThreshold ≤ s.total) →
      ∀ ts : Int,
        (scoreArmor STAT_PROFILES item).map (fun sc => sc.totalScore) = some ts →
        ((75 ≤ ts →
          (analyzeArmor rules item allItems existingReasons).action = RecAction.KEEP) ∧
         (50 ≤ ts → ts < 75 → hasBetterDuplicate item allItems = false →
          (analyzeArmor rules item allItems existingReasons).action = RecAction.KEEP) ∧
         (50 ≤ ts → ts < 75 → hasBetterDuplicate item allItems = true →
          (analyzeArmor rules item allItems existingReasons).action = RecAction.REVIEW) ∧
         (30 ≤ ts → ts < 50 →
          (analyzeArmor rules item allItems existingReasons).action = RecAction.REVIEW ∧
          (analyzeArmor rules item allItems existingReasons).reason =
            joinSep ". " (existingReasons ++
              ["Below average armor score: " ++ toString ts ++ "/100"])) ∧
         (ts < 30 →
          (analyzeArmor rules item allItems existingReasons).action = RecAction.JUNK))) ∧
    (item.itemType = ItemType.armor → item.stats = none →
      (analyzeArmor rules item allItems existingReasons).action = RecAction.REVIEW) := by
  constructor
  · intro s htype hstats hhs ts hts
    have hsc := scoreArmor_eq_some STAT_PROFILES item s htype hstats
    rw [hsc] at hts
    simp only [Option.map_some', Option.some.injEq] at hts
    have hcond : ¬ ((rules.protectHighStatArmor &&
        decide (rules.highStatThreshold ≤ s.total)) = true) := by
      simp only [Bool.and_eq_true, decide_eq_true_eq]
      exact fun hx => hhs ⟨hx.1, hx.2⟩
    simp only [analyzeArmor, hsc, hstats]
    rw [hts]
    refine ⟨?_, ?_, ?_, ?_, ?_⟩
    · intro h75
      rw [if_neg hcond, if_pos h75]
    · intro h50 h75 hbd
      rw [if_neg hcond, if_neg (by omega : ¬ 75 ≤ ts), if_pos h50,
        if_neg (by simp [hbd])]
    · intro h50 h75 hbd
      rw [if_neg hcond, if_neg (by omega : ¬ 75 ≤ ts), if_pos h50, if_pos hbd]
    · intro h30 h50
      rw [if_neg hcond, if_neg (by omega : ¬ 75 ≤ ts),
        if_neg (by omega : ¬ 50 ≤ ts), if_pos h30]
      exact ⟨rfl, rfl⟩
    · intro h30
      rw [if_neg hcond, if_neg (by omega : ¬ 75 ≤ ts),
        if_neg (by omega : ¬ 50 ≤ ts), if_neg (by omega : ¬ 30 ≤ ts)]
  · intro htype hstats
    have hsc := scoreArmor_eq_none STAT_PROFILES item hstats
    simp only [analyzeArmor, hsc, hstats]

/-- The stat vector of the witness for the 30-49 review tier
(24, 12, 12, 4, 4, 4; total 60; score 30). -/
def statsE : ArmorStats :=
  { mobility := 24, resilience := 12, recovery := 12, discipline := 4,
    intellect := 4, strength := 4, total := 60 }

/-- An armor piece carrying the review-tier stats. -/
def itemE : InventoryItem :=
  { itemInstanceId := "e1", itemHash := 200, name := "Review Helm",
    itemType := ItemType.armor, tier := ItemTier.Legendary,
    location := ItemLocation.Vault, isEquipped := false, isLocked := false,
    isMasterworked := false, powerLevel := 1800, armorSlot := none,
    classType := none, stats := some statsE }

theorem calculateTotalScore_statsE :
    calculateTotalScore statsE (analyzeStats statsE) = 30 := by
  have ha : analyzeStats statsE =
      { totalStats := 60, hasSpike := true, hasSuperSpike := false,
        topStats := [("Mobility", 24), ("Resilience", 12)],
        weakStats := [("Discipline", 4), ("Intellect", 4), ("Strength", 4)],
        isWellDistributed := false, artificeSlot := false } := by
    decide
  rw [ha]
  norm_num [calculateTotalScore, customThresholds, statsE, round_eq]

/-- C4 witness: the review-tier armor scores 30 and is sent to REVIEW
with the "Below average armor score: 30/100" reason under the default
rules (its total 60 is below the high-stat threshold 65). -/
theorem armor_tier_mapping_witness :
    itemE.itemType = ItemType.armor ∧ itemE.stats = some statsE ∧
    ¬ (DEFAULT_PROTECTION_RULES.protectHighStatArmor = true ∧
       DEFAULT_PROTECTION_RULES.highStatThreshold ≤ statsE.total) ∧
    (scoreArmor STAT_PROFILES itemE).map (fun sc => sc.totalScore) = some 30 ∧
    (analyzeArmor DEFAULT_PROTECTION_RULES itemE [itemE] []).action = RecAction.REVIEW ∧
    (analyzeArmor DEFAULT_PROTECTION_RULES itemE [itemE] []).reason =
      "Below average armor score: 30/100" := by
  have hts : (scoreArmor STAT_PROFILES itemE).map (fun sc => sc.totalScore) = some 30 :=
    scoreArmor_totalScore_eq STAT_PROFILES itemE statsE 30 rfl rfl
      calculateTotalScore_statsE
  have h := ((armor_tier_mapping DEFAULT_PROTECTION_RULES itemE [itemE] []).1 statsE
    rfl rfl (by decide) 30 hts).2.2.2.1 (by norm_num) (by norm_num)
  refine ⟨rfl, rfl, by decide, hts, h.1, ?_⟩
  rw [h.2]
  decide

/-! ### Claim C8 -/

/-- C8: `generatePlan` is a pure function of the planner state and the
item list: two calls with equal planners (same parser state and rules)
and equal item lists produce identical plans, recommendation order,
actions, reasons, scores, protection lists and summary counts included
(the wall-clock `generatedAt` field is outside the model and ignored). -/
theorem generatePlan_deterministic (p₁ p₂ : CleanupPlanner)
    (items₁ items₂ : List InventoryItem)
    (hp : p₁ = p₂) (hi : items₁ = items₂) :
    generatePlan p₁ items₁ = generatePlan p₂ items₂ := by
  subst hp
  subst hi
  rfl

/-- The planner state used by concrete plan-level scenarios: no DIM
backup, default rules, default configuration. -/
def plannerW : CleanupPlanner :=
  { dimParser := noParser
    protectionRules := DEFAULT_PROTECTION_RULES
    config := { includeCharacterInventory := false, onlyVault := true } }

/-- C8 witness: two calls on a concrete planner and item list give equal
plans. -/
theorem generatePlan_deterministic_witness :
    generatePlan plannerW [mkWeapon "w1" 1800, mkWeapon "w2" 1795] =
      generatePlan plannerW [mkWeapon "w1" 1800, mkWeapon "w2" 1795] :=
  generatePlan_deterministic plannerW plannerW
    [mkWeapon "w1" 1800, mkWeapon "w2" 1795]
    [mkWeapon "w1" 1800, mkWeapon "w2" 1795] rfl rfl

/-! ### Claim C6 -/

/-- Counterfactual used to state the tag-overlay claim: the same parser
state with any tag entry for the given item removed. -/
def removeTag (p : DIMParser) (itemInstanceId : String) : DIMParser :=
  { backup := p.backup.map (fun b =>
      { b with tags := b.tags.filter (fun t => decide (¬ t.1 = itemInstanceId)) }) }

theorem removeTag_loaded (p : DIMParser) (id : String) :
    (removeTag p id).loaded = p.loaded := by
  cases hb : p.backup <;> simp [removeTag, DIMParser.loaded, hb]

theorem removeTag_getLoadoutsForItem (p : DIMParser) (id x : String) :
    (removeTag p id).getLoadoutsForItem x = p.getLoadoutsForItem x := by
  cases hb : p.backup <;> simp [removeTag, DIMParser.getLoadoutsForItem, hb]

theorem lookup_filter_ne_none (id : String) (l : List (String × String)) :
    (l.filter (fun t => decide (¬ t.1 = id))).lookup id = none := by
  induction l with
  | nil => rfl
  | cons t ts ih =>
    obtain ⟨k, v⟩ := t
    by_cases h : k = id
    · rw [List.filter_cons, if_neg (by simp [h])]
      exact ih
    · rw [List.filter_cons, if_pos (by simp [h])]
      have hbeq : (id == k) = false := beq_eq_false_iff_ne.mpr (Ne.symm h)
      simp only [List.lookup, hbeq]
      exact ih

theorem removeTag_getTag_self (p : DIMParser) (id : String) :
    (removeTag p id).getTag id = none := by
  cases hb : p.backup with
  | none => simp [removeTag, DIMParser.getTag, hb]
  | some b =>
    simp only [removeTag, DIMParser.getTag, hb, Option.map_some']
    exact lookup_filter_ne_none id b.tags

theorem analyzeArmor_action_ext (rules : ProtectionRules) (item : InventoryItem)
    (allItems : List InventoryItem) (r₁ r₂ : List String) :
    (analyzeArmor rules item allItems r₁).action =
      (analyzeArmor rules item allItems r₂).action := by
  unfold analyzeArmor
  cases hsc : scoreArmor STAT_PROFILES item with
  | none => cases hst : item.stats <;> rfl
  | some a =>
    cases hst : item.stats with
    | none => rfl
    | some s =>
      dsimp only
      split_ifs <;> rfl

theorem analyzeWeapon_action_ext (item : InventoryItem)
    (allItems : List InventoryItem) (r₁ r₂ : List String) :
    (analyzeWeapon item allItems r₁).action =
      (analyzeWeapon item allItems r₂).action := by
  simp only [analyzeWeapon]
  split_ifs <;> rfl

theorem joinSep_cons_exists (sep a : String) (l : List String) :
    ∃ rest : String, joinSep sep (a :: l) = a ++ rest := by
  cases l with
  | nil => exact ⟨"", by simp [joinSep]⟩
  | cons b bs => exact ⟨sep ++ joinSep sep (b :: bs), by simp [joinSep, String.append_assoc]⟩

theorem analyzeArmor_reason_note (rules : ProtectionRules) (item : InventoryItem)
    (allItems : List InventoryItem) (note : String) :
    (analyzeArmor rules item allItems [note]).protectedBy = [] →
    ∃ rest : String, (analyzeArmor rules item allItems [note]).reason = note ++ rest := by
  unfold analyzeArmor
  split
  next x1 x2 armorScore st heq1 heq2 =>
    intro hpb
    by_cases hhs :
      (rules.protectHighStatArmor && decide (rules.highStatThreshold ≤ st.total)) = true
    · rw [if_pos hhs] at hpb
      simp at hpb
    · rw [if_neg hhs] at hpb ⊢
      split_ifs <;>
        (dsimp only; simp only [List.singleton_append];
         exact joinSep_cons_exists ". " note _)
  next =>
    intro _
    dsimp only
    simp only [List.singleton_append]
    exact joinSep_cons_exists ". " note _

theorem analyzeWeapon_reason_note (item : InventoryItem)
    (allItems : List InventoryItem) (note : String) :
    ∃ rest : String, (analyzeWeapon item allItems [note]).reason = note ++ rest := by
  simp only [analyzeWeapon]
  split_ifs <;>
    (dsimp only; simp only [List.singleton_append];
     exact joinSep_cons_exists ". " note _)

/-- C6 counterexample: a junk-tagged weapon that is the only copy of its
definition is KEPT, yet the junk tag still changed its reason text (the
same item under a parser without the tag gets a different reason), so the
tag does not influence the reason only on JUNK/REVIEW outcomes. -/
theorem junk_tag_reason_on_keep :
    (analyzeItem DEFAULT_PROTECTION_RULES
      { backup := some { loadouts := [], tags := [("j1", "junk")], notes := [] } }
      (mkWeapon "j1" 1800) [mkWeapon "j1" 1800]).action = RecAction.KEEP ∧
    (analyzeItem DEFAULT_PROTECTION_RULES
      { backup := some { loadouts := [], tags := [], notes := [] } }
      (mkWeapon "j1" 1800) [mkWeapon "j1" 1800]).action = RecAction.KEEP ∧
    (analyzeItem DEFAULT_PROTECTION_RULES
      { backup := some { loadouts := [], tags := [("j1", "junk")], notes := [] } }
      (mkWeapon "j1" 1800) [mkWeapon "j1" 1800]).reason ≠
    (analyzeItem DEFAULT_PROTECTION_RULES
      { backup := some { loadouts := [], tags := [], notes := [] } }
      (mkWeapon "j1" 1800) [mkWeapon "j1" 1800]).reason := by
  decide

/-- C6 amended: for a junk-tagged item the tag never changes the action
(removing the tag entry yields the same action), and on every unprotected
outcome - KEEP included, the high-stat-armor path excluded because that
path reports a non-empty protection list - the junk note prefixes the
reason text. -/
theorem junk_tag_overlay (rules : ProtectionRules) (parser : DIMParser)
    (item : InventoryItem) (allItems : List InventoryItem)
    (hl : parser.loaded = true)
    (htag : parser.getTag item.itemInstanceId = some "junk") :
    (analyzeItem rules parser item allItems).action =
      (analyzeItem rules (removeTag parser item.itemInstanceId) item allItems).action ∧
    ((analyzeItem rules parser item allItems).protectedBy = [] →
      ∃ rest : String,
        (analyzeItem rules parser item allItems).reason =
          "Tagged as junk in DIM" ++ rest) := by
  have hP : protectionReasons rules (removeTag parser item.itemInstanceId) item =
      protectionReasons rules parser item := by
    unfold protectionReasons
    rw [removeTag_loaded, removeTag_getLoadoutsForItem, removeTag_getTag_self, htag, hl]
    rfl
  have hR0 : junkTagNote parser item = ["Tagged as junk in DIM"] := by
    unfold junkTagNote
    rw [hl, htag]
    rfl
  have hR : junkTagNote (removeTag parser item.itemInstanceId) item = [] := by
    unfold junkTagNote
    rw [removeTag_loaded, hl, removeTag_getTag_self]
    rfl
  constructor
  · simp only [analyzeItem, hP, hR, hR0]
    split_ifs with h1 h2
    · rfl
    · exact analyzeArmor_action_ext rules item allItems _ _
    · exact analyzeWeapon_action_ext item allItems _ _
  · intro hpb
    simp only [analyzeItem, hR0] at hpb ⊢
    split_ifs at hpb ⊢ with h1 h2
    · dsimp only at hpb
      rw [hpb] at h1
      simp at h1
    · exact analyzeArmor_reason_note rules item allItems _ hpb
    · exact analyzeWeapon_reason_note item allItems _

/-- C6 witness: the amended overlay theorem applied to the concrete
junk-tagged only-copy weapon. -/
theorem junk_tag_overlay_witness :
    (analyzeItem DEFAULT_PROTECTION_RULES
        { backup := some { loadouts := [], tags := [("j1", "junk")], notes := [] } }
        (mkWeapon "j1" 1800) [mkWeapon "j1" 1800]).action =
      (analyzeItem DEFAULT_PROTECTION_RULES
        (removeTag { backup := some { loadouts := [], tags := [("j1", "junk")], notes := [] } }
          (mkWeapon "j1" 1800).itemInstanceId)
        (mkWeapon "j1" 1800) [mkWeapon "j1" 1800]).action ∧
    ((analyzeItem DEFAULT_PROTECTION_RULES
        { backup := some { loadouts := [], tags := [("j1", "junk")], notes := [] } }
        (mkWeapon "j1" 1800) [mkWeapon "j1" 1800]).protectedBy = [] →
      ∃ rest : String,
        (analyzeItem DEFAULT_PROTECTION_RULES
          { backup := some { loadouts := [], tags := [("j1", "junk")], notes := [] } }
          (mkWeapon "j1" 1800) [mkWeapon "j1" 1800]).reason =
            "Tagged as junk in DIM" ++ rest) :=
  junk_tag_overlay DEFAULT_PROTECTION_RULES
    { backup := some { loadouts := [], tags := [("j1", "junk")], notes := [] } }
    (mkWeapon "j1" 1800) [mkWeapon "j1" 1800] (by decide) (by decide)

/-! ### Claim C7 -/

/-- The invariant carried by the grouping map: every entry's items share
the entry's hash key and none is of category `other`. -/
def GroupsInv (acc : List (Nat × List InventoryItem)) : Prop :=
  ∀ e ∈ acc, ∀ i ∈ e.2, i.itemHash = e.1 ∧ i.itemType ≠ ItemType.other

theorem upsertGroup_inv (key : Nat) (item : InventoryItem)
    (hitem : item.itemHash = key ∧ item.itemType ≠ ItemType.other) :
    ∀ acc : List (Nat × List InventoryItem), GroupsInv acc →
      GroupsInv (upsertGroup key item acc) := by
  intro acc
  induction acc with
  | nil =>
    intro _
    intro e he i hi
    simp only [upsertGroup, List.mem_singleton] at he
    subst he
    simp only [List.mem_singleton] at hi
    subst hi
    exact hitem
  | cons hd tl ih =>
    intro hacc
    obtain ⟨k, g⟩ := hd
    have hhd := hacc (k, g) (List.mem_cons_self _ _)
    have htl : GroupsInv tl := fun e he => hacc e (List.mem_cons_of_mem _ he)
    by_cases h : k = key
    · simp only [upsertGroup, if_pos h]
      intro e he i hi
      rcases List.mem_cons.mp he with rfl | he
      · rcases List.mem_append.mp hi with hi | hi
        · exact hhd i hi
        · simp only [List.mem_singleton] at hi
          subst hi
          subst h
          exact hitem
      · exact htl e he i hi
    · simp only [upsertGroup, if_neg h]
      intro e he i hi
      rcases List.mem_cons.mp he with rfl | he
      · exact hhd i hi
      · exact ih htl e he i hi

theorem groupStep_inv (options : DuplicateFinderOptions)
    (acc : List (Nat × List InventoryItem)) (item : InventoryItem)
    (hacc : GroupsInv acc) : GroupsInv (groupStep options acc item) := by
  unfold groupStep
  split_ifs with h1 h2 h3
  · exact hacc
  · exact hacc
  · exact hacc
  · apply upsertGroup_inv item.itemHash item ?_ acc hacc
    refine ⟨rfl, ?_⟩
    simpa using h3

theorem buildGroups_inv (options : DuplicateFinderOptions)
    (items : List InventoryItem) : GroupsInv (buildGroups options items) := by
  unfold buildGroups
  have hgen : ∀ acc : List (Nat × List InventoryItem), GroupsInv acc →
      GroupsInv (items.foldl (groupStep options) acc) := by
    induction items with
    | nil => exact fun acc hacc => hacc
    | cons x xs ih =>
      intro acc hacc
      simp only [List.foldl_cons]
      exact ih _ (groupStep_inv options acc x hacc)
  exact hgen [] (by intro e he; simp at he)

/-- C7: every group returned by `findDuplicates` contains only items
sharing the group's definition hash, contains no item of category
`other`, has at least `minDuplicates` members, and the group list is
ordered by non-increasing group size. -/
theorem findDuplicates_groups_sound (options : DuplicateFinderOptions)
    (items : List InventoryItem) :
    (∀ g ∈ findDuplicates options items,
      (∀ i ∈ g.items, i.itemHash = g.itemHash ∧ i.itemType ≠ ItemType.other) ∧
      options.minDuplicates ≤ g.items.length) ∧
    List.Pairwise (fun a b => b.items.length ≤ a.items.length)
      (findDuplicates options items) := by
  constructor
  · intro g hg
    unfold findDuplicates at hg
    rw [mem_stableSort] at hg
    rw [List.mem_map] at hg
    obtain ⟨e, he, rfl⟩ := hg
    rw [List.mem_filter] at he
    obtain ⟨he, hlen⟩ := he
    constructor
    · intro i hi
      exact buildGroups_inv options items e he i hi
    · simpa using hlen
  · unfold findDuplicates
    apply List.Pairwise.imp ?_
      (pairwise_stableSort
        (fun (a b : DuplicateGroup) => decide (b.items.length < a.items.length)) ?_ ?_ _)
    · intro a b hab
      simp only [decide_eq_false_iff_not, not_lt] at hab
      exact hab
    · intro a b hab
      simp only [decide_eq_true_eq] at hab
      simp only [decide_eq_false_iff_not, not_lt]
      omega
    · intro a b c hac
      simp only [decide_eq_true_eq] at hac ⊢
      omega

/-- C7 witness: the soundness theorem applied to a concrete input of two
same-definition weapons, which form one group of size two. -/
theorem findDuplicates_groups_sound_witness :
    ((findDuplicates DEFAULT_OPTIONS [mkWeapon "d1" 1800, mkWeapon "d2" 1790]).headD default
      ∈ findDuplicates DEFAULT_OPTIONS [mkWeapon "d1" 1800, mkWeapon "d2" 1790]) ∧
    (∀ i ∈ ((findDuplicates DEFAULT_OPTIONS
        [mkWeapon "d1" 1800, mkWeapon "d2" 1790]).headD default).items,
      i.itemHash = ((findDuplicates DEFAULT_OPTIONS
        [mkWeapon "d1" 1800, mkWeapon "d2" 1790]).headD default).itemHash ∧
      i.itemType ≠ ItemType.other) ∧
    DEFAULT_OPTIONS.minDuplicates ≤ ((findDuplicates DEFAULT_OPTIONS
      [mkWeapon "d1" 1800, mkWeapon "d2" 1790]).headD default).items.length ∧
    List.Pairwise (fun a b => b.items.length ≤ a.items.length)
      (findDuplicates DEFAULT_OPTIONS [mkWeapon "d1" 1800, mkWeapon "d2" 1790]) := by
  have hmem : (findDuplicates DEFAULT_OPTIONS
      [mkWeapon "d1" 1800, mkWeapon "d2" 1790]).headD default
      ∈ findDuplicates DEFAULT_OPTIONS [mkWeapon "d1" 1800, mkWeapon "d2" 1790] := by
    decide
  have h := findDuplicates_groups_sound DEFAULT_OPTIONS
    [mkWeapon "d1" 1800, mkWeapon "d2" 1790]
  exact ⟨hmem, (h.1 _ hmem).1, (h.1 _ hmem).2, h.2⟩

end VaultCurator
